import Mathlib

/-!
Verification of the error-bar geometry logic of `Scripts/Notebooks/charts.py`
(function `plots_with_error_bars`), embedded shallowly over rational numbers.

The Python function reads three parallel sequences from its `data_frame`
(`mean`, `error`, and the index labels), builds per-sample error-bar line
segments, and updates the chart's lower axis bound `p.y_range.start`:
if the existing start value is truthy (present and nonzero) it becomes
`min(start, floor(min(ys) / 10) * 10)`, otherwise `floor(min(ys) / 10) * 10`.
We model the pre-existing `p.y_range.start` as an `Option ℚ` input and the
produced geometry (positions, scatter points, segments, new start value)
as an explicit structure; Python's `min` on an empty sequence raises
`ValueError`, which we model as `none`.
-/

namespace Charts

/-- The tabular input consumed by `plots_with_error_bars`: a labeled index
and the two named columns `mean` and `error`, read as parallel lists. -/
structure DataFrame where
  index : List String
  mean : List ℚ
  error : List ℚ
  deriving DecidableEq, Repr

/-- A single labeled observation, as in the spec's data model. -/
structure Sample where
  id : String
  mean : ℚ
  error : ℚ
  deriving DecidableEq, Repr

/-- View a sequence of Samples as the tabular input of the builder. -/
def dataFrameOfSamples (samples : List Sample) : DataFrame where
  index := samples.map Sample.id
  mean := samples.map Sample.mean
  error := samples.map Sample.error

/-- The geometry produced by one invocation of the builder. -/
structure ErrorBarGeometry where
  positions : List ℕ
  points : List (ℕ × ℚ)
  segments : List ((ℕ × ℕ) × (ℚ × ℚ))
  suggestedLowerBound : ℚ
  deriving DecidableEq, Repr

/-- Python's `min` over a list: a left fold of binary `min`, failing
(`none`) on the empty list, where CPython raises `ValueError`. -/
def listMin : List ℚ → Option ℚ
  | [] => none
  | y :: ys => some (ys.foldl min y)

/-- Embedding of `math.floor(m / 10) * 10`. -/
def floorTen (m : ℚ) : ℚ := ((⌊m / 10⌋ : ℤ) : ℚ) * 10

/-- Shallow embedding of `plots_with_error_bars` (charts.py, lines 16-42),
restricted to the geometry it computes.  `ys`, `xs`, `yerrs`, `err_xs` and
`err_ys` mirror the local variables of the Python function; `yRangeStart`
models the pre-existing `p.y_range.start` (`none` = Python `None`).  The
final `if p.y_range.start:` is Python truthiness, so a start of `0` takes
the `else` branch exactly as `None` does. -/
def plots_with_error_bars (data_frame : DataFrame) (yRangeStart : Option ℚ) :
    Option ErrorBarGeometry :=
  let ys := data_frame.mean
  let xs := List.range ys.length
  let yerrs := data_frame.error
  let zipped := xs.zip (ys.zip yerrs)
  let err_xs := zipped.map fun t => (t.1, t.1)
  let err_ys := zipped.map fun t => (t.2.1 - t.2.2, t.2.1 + t.2.2)
  match listMin ys with
  | none => none
  | some m =>
    let floorBound := floorTen m
    let start : ℚ :=
      match yRangeStart with
      | some b => if b ≠ 0 then min b floorBound else floorBound
      | none => floorBound
    some { positions := xs
           points := xs.zip ys
           segments := err_xs.zip err_ys
           suggestedLowerBound := start }

/-- The two-sample input used as the spec's worked scenario. -/
def samplesAB : List Sample := [⟨"A", 50, 5⟩, ⟨"B", 42, 3⟩]

/-- The geometry the spec's worked scenario expects for `samplesAB`. -/
def geomAB : ErrorBarGeometry where
  positions := [0, 1]
  points := [(0, 50), (1, 42)]
  segments := [((0, 0), (45, 55)), ((1, 1), (39, 45))]
  suggestedLowerBound := 40

/-- `listMin` succeeds exactly on non-empty lists. -/
lemma listMin_isSome (l : List ℚ) (h : l ≠ []) : ∃ m, listMin l = some m := by
  cases l with
  | nil => exact absurd rfl h
  | cons y ys => exact ⟨ys.foldl min y, rfl⟩

/-- The builder fails when the mean column is empty. -/
lemma plots_eq_none (df : DataFrame) (pr : Option ℚ) (h : df.mean = []) :
    plots_with_error_bars df pr = none := by
  simp only [plots_with_error_bars, h, listMin]

/-- Closed form of the builder's output when the mean column has a minimum. -/
lemma plots_eq_some (df : DataFrame) (pr : Option ℚ) (m : ℚ)
    (hm : listMin df.mean = some m) :
    plots_with_error_bars df pr = some
      { positions := List.range df.mean.length
        points := (List.range df.mean.length).zip df.mean
        segments := ((List.range df.mean.length).zip (df.mean.zip df.error)).map
          fun t => ((t.1, t.1), (t.2.1 - t.2.2, t.2.1 + t.2.2))
        suggestedLowerBound :=
          match pr with
          | some b => if b ≠ 0 then min b (floorTen m) else floorTen m
          | none => floorTen m } := by
  simp only [plots_with_error_bars, hm, List.zip_map']

/-- `floor(m / 10) * 10` never exceeds `m`. -/
lemma floorTen_le (m : ℚ) : floorTen m ≤ m := by
  have h : ((⌊m / 10⌋ : ℤ) : ℚ) ≤ m / 10 := Int.floor_le _
  have h10 : (0 : ℚ) ≤ 10 := by norm_num
  calc floorTen m = ((⌊m / 10⌋ : ℤ) : ℚ) * 10 := rfl
    _ ≤ (m / 10) * 10 := mul_le_mul_of_nonneg_right h h10
    _ = m := div_mul_cancel₀ m (by norm_num)

/-- Zipping the index range of a list with a mapped copy of it enumerates
the list. -/
lemma range_zip_map {α β : Type} (f : α → β) (l : List α) :
    (List.range l.length).zip (l.map f) = l.enum.map (Prod.map id f) := by
  rw [List.enum_eq_zip_range, ← List.zip_map, List.map_id]

/-- At the Sample level, the three geometric fields of a successful build,
in enumerated closed form. -/
lemma plots_samples_some (samples : List Sample) (pr : Option ℚ)
    (g : ErrorBarGeometry)
    (hg : plots_with_error_bars (dataFrameOfSamples samples) pr = some g) :
    g.positions = List.range samples.length ∧
    g.points = samples.enum.map (fun p => (p.1, p.2.mean)) ∧
    g.segments = samples.enum.map
      (fun p => ((p.1, p.1), (p.2.mean - p.2.error, p.2.mean + p.2.error))) := by
  cases hmm : listMin (dataFrameOfSamples samples).mean with
  | none =>
    rw [plots_eq_none _ pr (by cases samples <;> simp_all [dataFrameOfSamples, listMin])] at hg
    cases hg
  | some m =>
    rw [plots_eq_some _ pr m hmm] at hg
    obtain rfl := (Option.some.inj hg).symm
    refine ⟨?_, ?_, ?_⟩
    · simp [dataFrameOfSamples]
    · show (List.range (samples.map Sample.mean).length).zip (samples.map Sample.mean) = _
      rw [List.length_map, range_zip_map]
      rfl
    · show (((List.range (samples.map Sample.mean).length).zip
        ((samples.map Sample.mean).zip (samples.map Sample.error))).map
          fun t => ((t.1, t.1), (t.2.1 - t.2.2, t.2.1 + t.2.2))) = _
      rw [List.zip_map', List.length_map,
        range_zip_map (fun s => (s.mean, s.error)) samples, List.map_map]
      rfl

/-- The segment at index `i` of a successful build, at the Sample level. -/
lemma segments_get (samples : List Sample) (pr : Option ℚ) (g : ErrorBarGeometry)
    (hg : plots_with_error_bars (dataFrameOfSamples samples) pr = some g)
    (i : ℕ) (hi : i < samples.length) :
    g.segments.get? i = some ((i, i),
      ((samples.get ⟨i, hi⟩).mean - (samples.get ⟨i, hi⟩).error,
       (samples.get ⟨i, hi⟩).mean + (samples.get ⟨i, hi⟩).error)) := by
  rw [(plots_samples_some samples pr g hg).2.2, List.get?_map, List.get?_enum,
    List.get?_eq_get hi]
  rfl

/-- Evaluation of the builder on the spec's worked two-sample scenario. -/
lemma plots_samplesAB :
    plots_with_error_bars (dataFrameOfSamples samplesAB) none = some geomAB := by
  norm_num [plots_with_error_bars, dataFrameOfSamples, samplesAB, geomAB,
    listMin, floorTen, List.range_succ, min_def]

/-- C2: in every successful build, the segment at index `i` is
`((i, i), (mean_i - error_i, mean_i + error_i))`: both x-coordinates are the
Sample's position and the y-span runs from mean minus error to mean plus
error. -/
theorem C2_segment_endpoints (samples : List Sample) (pr : Option ℚ)
    (g : ErrorBarGeometry)
    (hg : plots_with_error_bars (dataFrameOfSamples samples) pr = some g)
    (i : ℕ) (hi : i < samples.length) :
    g.segments.get? i = some ((i, i),
      ((samples.get ⟨i, hi⟩).mean - (samples.get ⟨i, hi⟩).error,
       (samples.get ⟨i, hi⟩).mean + (samples.get ⟨i, hi⟩).error)) :=
  segments_get samples pr g hg i hi

/-- Witness for C2 at the concrete two-sample input, index 0. -/
theorem C2_segment_endpoints_witness :
    geomAB.segments.get? 0 = some ((0, 0), (45, 55)) := by
  have h := C2_segment_endpoints samplesAB none geomAB plots_samplesAB 0
    (by norm_num [samplesAB])
  rw [h]
  norm_num [samplesAB]

/-- C3: in every successful build, the assigned positions are exactly the
0-based indices 0, 1, 2, … of the Samples in input order. -/
theorem C3_positions_are_indices (samples : List Sample) (pr : Option ℚ)
    (g : ErrorBarGeometry)
    (hg : plots_with_error_bars (dataFrameOfSamples samples) pr = some g) :
    g.positions = List.range samples.length :=
  (plots_samples_some samples pr g hg).1

/-- Witness for C3 at the concrete two-sample input. -/
theorem C3_positions_are_indices_witness :
    geomAB.positions = List.range 2 :=
  C3_positions_are_indices samplesAB none geomAB plots_samplesAB

/-- C5: the spec's worked scenario: two samples (A, 50, 5) and (B, 42, 3),
no prior bound, yield positions [0, 1], points [(0, 50), (1, 42)], segments
[((0, 0), (45, 55)), ((1, 1), (39, 45))] and suggested lower bound 40. -/
theorem C5_worked_scenario :
    plots_with_error_bars (dataFrameOfSamples [⟨"A", 50, 5⟩, ⟨"B", 42, 3⟩]) none =
      some { positions := [0, 1]
             points := [(0, 50), (1, 42)]
             segments := [((0, 0), (45, 55)), ((1, 1), (39, 45))]
             suggestedLowerBound := 40 } := by
  norm_num [plots_with_error_bars, dataFrameOfSamples, listMin, floorTen,
    List.range_succ, min_def]

/-- C6: the builder is deterministic and stateless: equal inputs (same
data frame and same prior lower bound) give equal geometry. -/
theorem C6_deterministic (df₁ df₂ : DataFrame) (pr₁ pr₂ : Option ℚ)
    (hdf : df₁ = df₂) (hpr : pr₁ = pr₂) :
    plots_with_error_bars df₁ pr₁ = plots_with_error_bars df₂ pr₂ := by
  rw [hdf, hpr]

/-- Witness for C6 at the concrete two-sample input. -/
theorem C6_deterministic_witness :
    plots_with_error_bars (dataFrameOfSamples samplesAB) none =
      plots_with_error_bars (dataFrameOfSamples samplesAB) none :=
  C6_deterministic (dataFrameOfSamples samplesAB) (dataFrameOfSamples samplesAB)
    none none rfl rfl

/-- C7: on the empty input sequence the minimum of the (empty) means is
undefined and the builder produces no geometry, whatever the prior bound. -/
theorem C7_empty_input_fails (pr : Option ℚ) :
    listMin (dataFrameOfSamples []).mean = none ∧
    plots_with_error_bars (dataFrameOfSamples []) pr = none :=
  ⟨rfl, rfl⟩

/-- C1 as stated is false: with a prior bound of 0 and means [50], the code
leaves the bound at floor(50/10)*10 = 50 because Python's `if p.y_range.start:`
treats 0 as absent, while min(0, floorBound) would be 0. -/
theorem C1_counterexample :
    (plots_with_error_bars (dataFrameOfSamples [⟨"A", 50, 5⟩]) (some 0)).map
        ErrorBarGeometry.suggestedLowerBound = some 50 ∧
    min (0 : ℚ) (floorTen 50) ≠ 50 := by
  constructor
  · norm_num [plots_with_error_bars, dataFrameOfSamples, listMin, floorTen]
  · norm_num [floorTen, min_def]

/-- C1 amended: if a nonzero prior lower bound was supplied the builder sets
suggestedLowerBound = min(priorBound, floorBound); if no prior bound, or a
prior bound equal to 0, was supplied, it sets suggestedLowerBound =
floorBound, where floorBound = floor(min(means)/10)*10. -/
theorem C1_suggested_lower_bound (df : DataFrame) (pr : Option ℚ) (m : ℚ)
    (hm : listMin df.mean = some m) :
    (∀ b : ℚ, pr = some b → b ≠ 0 →
      (plots_with_error_bars df pr).map ErrorBarGeometry.suggestedLowerBound =
        some (min b (floorTen m))) ∧
    (pr = none ∨ pr = some 0 →
      (plots_with_error_bars df pr).map ErrorBarGeometry.suggestedLowerBound =
        some (floorTen m)) := by
  rw [plots_eq_some df pr m hm, Option.map_some']
  constructor
  · rintro b rfl hb
    simp [hb]
  · rintro (rfl | rfl) <;> simp

/-- Witness for C1 at the two-sample input with prior bound 30: the suggested
lower bound stays 30 = min(30, 40). -/
theorem C1_suggested_lower_bound_witness :
    (plots_with_error_bars (dataFrameOfSamples samplesAB) (some 30)).map
      ErrorBarGeometry.suggestedLowerBound = some 30 := by
  have h := (C1_suggested_lower_bound (dataFrameOfSamples samplesAB) (some 30) 42
    (by norm_num [listMin, dataFrameOfSamples, samplesAB, min_def])).1 30 rfl
    (by norm_num)
  rw [h]
  norm_num [floorTen, min_def]

/-- C4: for a non-empty mean column whose label and error columns have the
same length n, the build succeeds and produces exactly n points, n segments
and n positions. -/
theorem C4_output_lengths (df : DataFrame) (pr : Option ℚ)
    (hne : df.mean ≠ [])
    (hlab : df.index.length = df.mean.length)
    (herr : df.error.length = df.mean.length) :
    ∃ g, plots_with_error_bars df pr = some g ∧
      g.points.length = df.mean.length ∧
      g.segments.length = df.mean.length ∧
      g.positions.length = df.mean.length := by
  obtain ⟨m, hm⟩ := listMin_isSome df.mean hne
  refine ⟨_, plots_eq_some df pr m hm, ?_, ?_, ?_⟩ <;>
    simp only [List.length_zip, List.length_map, List.length_range] <;> omega

/-- Witness for C4 at the concrete two-sample data frame. -/
theorem C4_output_lengths_witness :
    ∃ g, plots_with_error_bars ⟨["A", "B"], [50, 42], [5, 3]⟩ none = some g ∧
      g.points.length = 2 ∧ g.segments.length = 2 ∧ g.positions.length = 2 := by
  have h := C4_output_lengths ⟨["A", "B"], [50, 42], [5, 3]⟩ none
    (by simp) (by simp) (by simp)
  simpa using h

/-- C8: a Sample with negative error is neither rejected nor clamped: the
segment ((i, i), (mean - error, mean + error)) is still emitted, and its
first y-endpoint strictly exceeds its second (an inverted segment). -/
theorem C8_negative_error_inverted (samples : List Sample) (pr : Option ℚ)
    (g : ErrorBarGeometry)
    (hg : plots_with_error_bars (dataFrameOfSamples samples) pr = some g)
    (i : ℕ) (hi : i < samples.length)
    (hneg : (samples.get ⟨i, hi⟩).error < 0) :
    g.segments.get? i = some ((i, i),
      ((samples.get ⟨i, hi⟩).mean - (samples.get ⟨i, hi⟩).error,
       (samples.get ⟨i, hi⟩).mean + (samples.get ⟨i, hi⟩).error)) ∧
    (samples.get ⟨i, hi⟩).mean + (samples.get ⟨i, hi⟩).error <
      (samples.get ⟨i, hi⟩).mean - (samples.get ⟨i, hi⟩).error :=
  ⟨segments_get samples pr g hg i hi, by linarith⟩

/-- The geometry produced for the single sample (N, 50, -5). -/
def geomNeg : ErrorBarGeometry where
  positions := [0]
  points := [(0, 50)]
  segments := [((0, 0), (55, 45))]
  suggestedLowerBound := 50

/-- Evaluation of the builder on the single negative-error sample. -/
lemma plots_sampleNeg :
    plots_with_error_bars (dataFrameOfSamples [⟨"N", 50, -5⟩]) none =
      some geomNeg := by
  norm_num [plots_with_error_bars, dataFrameOfSamples, geomNeg, listMin,
    floorTen, List.range_succ]

/-- Witness for C8 at the sample (N, 50, -5): the emitted segment is
((0, 0), (55, 45)), upper endpoint below lower endpoint. -/
theorem C8_negative_error_inverted_witness :
    geomNeg.segments.get? 0 = some ((0, 0), (55, 45)) ∧ (45 : ℚ) < 55 := by
  have h := C8_negative_error_inverted [⟨"N", 50, -5⟩] none geomNeg
    plots_sampleNeg 0 (by norm_num) (by norm_num)
  refine ⟨?_, by norm_num⟩
  rw [h.1]
  norm_num

/-- C9 as stated is false: with an empty mean column and a one-element error
column the lengths differ, yet the builder produces no result at all (Python's
`min` raises on the empty mean sequence) instead of a geometry with
min(0, 1) = 0 segments. -/
theorem C9_counterexample :
    plots_with_error_bars ⟨["A"], [], [1]⟩ none = none ∧
    (plots_with_error_bars ⟨["A"], [], [1]⟩ none).map
      (fun g => g.segments.length) ≠ some (min 0 1) :=
  ⟨rfl, by simp [plots_eq_none ⟨["A"], [], [1]⟩ none rfl]⟩

/-- C9 amended: when the mean column is non-empty, the builder produces a
result even when the error column has a different length, and the number of
emitted segments is the minimum of the two lengths: the zip of positions,
means and errors stops at the shorter sequence. -/
theorem C9_mismatched_lengths (df : DataFrame) (pr : Option ℚ)
    (hne : df.mean ≠ []) (hmm : df.mean.length ≠ df.error.length) :
    (plots_with_error_bars df pr).map (fun g => g.segments.length) =
      some (min df.mean.length df.error.length) := by
  obtain ⟨m, hm⟩ := listMin_isSome df.mean hne
  rw [plots_eq_some df pr m hm, Option.map_some']
  dsimp only
  simp only [List.length_map, List.length_zip, List.length_range,
    Option.some.injEq]
  omega

/-- Witness for C9 at one mean and two errors: one segment, min(1, 2). -/
theorem C9_mismatched_lengths_witness :
    (plots_with_error_bars ⟨["A"], [50], [5, 3]⟩ none).map
      (fun g => g.segments.length) = some (min 1 2) :=
  C9_mismatched_lengths ⟨["A"], [50], [5, 3]⟩ none (by simp) (by simp)

/-- C10: in every successful build the suggested lower bound never exceeds
the smallest mean, with or without a prior bound: flooring to a multiple of
10 only rounds down, and taking the min with a prior bound only decreases. -/
theorem C10_bound_le_min_mean (df : DataFrame) (pr : Option ℚ)
    (g : ErrorBarGeometry) (m : ℚ)
    (hg : plots_with_error_bars df pr = some g)
    (hm : listMin df.mean = some m) :
    g.suggestedLowerBound ≤ m := by
  rw [plots_eq_some df pr m hm, Option.some_inj] at hg
  subst hg
  dsimp only
  have hf := floorTen_le m
  cases pr with
  | none => exact hf
  | some b =>
    dsimp only
    by_cases hb : b ≠ 0
    · rw [if_pos hb]
      exact le_trans (min_le_right b (floorTen m)) hf
    · rw [if_neg hb]
      exact hf

/-- Witness for C10 at the two-sample input: 40 ≤ 42. -/
theorem C10_bound_le_min_mean_witness :
    geomAB.suggestedLowerBound ≤ 42 :=
  C10_bound_le_min_mean (dataFrameOfSamples samplesAB) none geomAB 42
    plots_samplesAB
    (by norm_num [listMin, dataFrameOfSamples, samplesAB, min_def])

end Charts
